import Mathlib

/-!
Verification development for the rvmofx OpenFX video-matting plugin
(src/rvmofx.cpp).  The C++ source is shallowly embedded: host-side state
(the per-instance private data, the parameter store, pixel buffers) is
modelled by explicit Lean structures, and each handler of the source is
translated into a pure state-transition function.  Doubles that may hold
the NaN sentinel are modelled as Option over rationals, with the IEEE
rules the source relies on (NaN compares unequal to everything, NaN + 1
is NaN) made explicit in the comparison helpers.
-/

/- ------------------------------------------------------------------ -/
/- Enumerations (source lines 47-71)                                  -/
/- ------------------------------------------------------------------ -/

inductive deviceParamValue
  | DEVICE_CPU
  | DEVICE_CUDA
  deriving DecidableEq, Repr

inductive modelParamValue
  | MODEL_MOBILENETV3
  | MODEL_RESNET50
  | MODEL_CUSTOM
  deriving DecidableEq, Repr

inductive modelPrecisionParamValue
  | MODEL_PRECISION_FLOAT16
  | MODEL_PRECISION_FLOAT32
  deriving DecidableEq, Repr

open deviceParamValue modelParamValue modelPrecisionParamValue

/-- Raw integer value of the outputType choice parameter.  The cached copy
in the instance data is an enum field filled from a host integer, and the
render switch has an explicit default arm for unrecognized values, so the
model keeps the raw integer domain. -/
abbrev outputTypeRaw := Int

def OUTPUT_RGBA : outputTypeRaw := 0
def OUTPUT_ALPHA : outputTypeRaw := 1

/-- Raw integer value of the colorSource choice parameter. -/
abbrev colorSourceRaw := Int

def COLOR_SRC_INPUT : colorSourceRaw := 0
def COLOR_SRC_MODEL : colorSourceRaw := 1

/- ------------------------------------------------------------------ -/
/- Parameter store (host side, accessed via paramGetValue /           -/
/- paramSetValue / setParamEnabledness)                               -/
/- ------------------------------------------------------------------ -/

/-- Model of the host parameter store for this effect: the current value
of every declared parameter together with the per-parameter enabled flag
that setParamEnabledness manipulates. -/
structure ParamStore where
  device : deviceParamValue
  model : modelParamValue
  modelFile : String
  modelPrecision : modelPrecisionParamValue
  downsampleRatioP : ℚ
  outputTypeP : outputTypeRaw
  colorSourceP : colorSourceRaw
  postmultiplyAlphaP : Bool
  modelPrecisionEnabled : Bool
  modelFileEnabled : Bool
  colorSourceEnabled : Bool
  postmultiplyAlphaEnabled : Bool
  deriving DecidableEq, Repr

/-- updateParamsValidity (source lines 153-182): device drives the
precision value and enabledness, the model selector drives the
modelFile enabledness, the output type drives the colorSource and
postmultiplyAlpha enabledness. -/
def updateParamsValidity (p : ParamStore) : ParamStore :=
  let p1 :=
    match p.device with
    | DEVICE_CPU =>
        { p with modelPrecision := MODEL_PRECISION_FLOAT32,
                 modelPrecisionEnabled := false }
    | DEVICE_CUDA =>
        { p with modelPrecisionEnabled := true }
  let p2 := { p1 with modelFileEnabled := decide (p1.model = MODEL_CUSTOM) }
  { p2 with colorSourceEnabled := decide (p2.outputTypeP = OUTPUT_RGBA),
            postmultiplyAlphaEnabled := decide (p2.outputTypeP = OUTPUT_RGBA) }

/- ------------------------------------------------------------------ -/
/- Instance data (source lines 74-114)                                -/
/- ------------------------------------------------------------------ -/

/-- Abstract tensor handle for the recurrent state slots: the session
logic only tests definedness of the slots and moves model outputs into
them, so the payload is an opaque identifier. -/
abbrev RTensor := Nat

/-- The nested torch sub-structure of InstanceData (source lines
101-113).  rn_time is an OfxTime double initialized to nan; the model of
a possibly-NaN double is Option over the rationals, none standing for
NaN.  rn are four torch tensors, default-constructed undefined, hence
Option. -/
structure TorchState where
  ready : Bool
  device : deviceParamValue
  dtype : modelPrecisionParamValue
  modelPath : Option String
  rn_time : Option ℚ
  rn0 : Option RTensor
  rn1 : Option RTensor
  rn2 : Option RTensor
  rn3 : Option RTensor
  deriving DecidableEq, Repr

/-- InstanceData: cached clip-connection flags, cached parameter values
and the torch sub-state.  The param store itself is host-owned; the
instance holds a reference, modelled by embedding the store. -/
structure InstanceData where
  params : ParamStore
  hasGarbageMatte : Bool
  hasSolidMatte : Bool
  downsampleRatioC : ℚ
  outputTypeC : outputTypeRaw
  colorSourceC : colorSourceRaw
  postmultiplyAlphaC : Bool
  torch : TorchState
  deriving DecidableEq, Repr

/-- Fresh instance as produced by effectCreateInstance: the private data
is value-initialized (new InstanceData()), so booleans are false, the
torch constructor sets rn_time to nan and leaves the four rn tensors
default-constructed (undefined); then updateParamsValidity runs once. -/
def instanceInit (p : ParamStore) : InstanceData :=
  { params := updateParamsValidity p
    hasGarbageMatte := false
    hasSolidMatte := false
    downsampleRatioC := 0
    outputTypeC := 0
    colorSourceC := 0
    postmultiplyAlphaC := false
    torch :=
      { ready := false
        device := DEVICE_CPU
        dtype := MODEL_PRECISION_FLOAT32
        modelPath := none
        rn_time := none
        rn0 := none, rn1 := none, rn2 := none, rn3 := none } }

/- ------------------------------------------------------------------ -/
/- Change notifications                                               -/
/- ------------------------------------------------------------------ -/

inductive ChangeReason
  | userEdited
  | other
  deriving DecidableEq, Repr

inductive ChangedType
  | clip
  | param
  | otherType
  deriving DecidableEq, Repr

/-- effectEndInstanceChanged (source lines 474-496): on a user edit,
re-run updateParamsValidity; in all cases refresh the cached copies of
downsampleRatio, outputType, colorSource, postmultiplyAlpha from the
live parameter store. -/
def effectEndInstanceChanged (reason : ChangeReason) (i : InstanceData) :
    InstanceData :=
  let i1 :=
    if reason = ChangeReason.userEdited then
      { i with params := updateParamsValidity i.params }
    else i
  { i1 with downsampleRatioC := i1.params.downsampleRatioP
            outputTypeC := i1.params.outputTypeP
            colorSourceC := i1.params.colorSourceP
            postmultiplyAlphaC := i1.params.postmultiplyAlphaP }

/- ------------------------------------------------------------------ -/
/- Theorems: parameter-validity state machine                         -/
/- ------------------------------------------------------------------ -/

/-- Claim C9: after every completed user edit (effectEndInstanceChanged
with a user-edited reason), the parameter-validity rules hold on the
parameter store: CPU device forces 32-bit precision and disables the
precision control, CUDA enables it; the custom-file-path control is
enabled exactly when the model selector is custom; and the colorSource
and postmultiplyAlpha controls are enabled exactly when the output type
is full-color RGBA. -/
theorem endInstanceChanged_param_validity
    (i : InstanceData) (reason : ChangeReason)
    (h : reason = ChangeReason.userEdited) :
    let p := (effectEndInstanceChanged reason i).params
    (p.device = DEVICE_CPU →
       p.modelPrecision = MODEL_PRECISION_FLOAT32 ∧
       p.modelPrecisionEnabled = false) ∧
    (p.device = DEVICE_CUDA → p.modelPrecisionEnabled = true) ∧
    (p.modelFileEnabled = true ↔ p.model = MODEL_CUSTOM) ∧
    (p.colorSourceEnabled = true ↔ p.outputTypeP = OUTPUT_RGBA) ∧
    (p.postmultiplyAlphaEnabled = true ↔ p.outputTypeP = OUTPUT_RGBA) := by
  subst h
  simp only [effectEndInstanceChanged, updateParamsValidity]
  cases hd : i.params.device <;>
    simp [hd, decide_eq_true_eq]

/-- Witness for endInstanceChanged_param_validity at a concrete store. -/
theorem endInstanceChanged_param_validity_witness :
    ChangeReason.userEdited = ChangeReason.userEdited ∧
    (let p := (effectEndInstanceChanged ChangeReason.userEdited
        (instanceInit
          { device := DEVICE_CPU, model := MODEL_CUSTOM, modelFile := ""
            modelPrecision := MODEL_PRECISION_FLOAT16
            downsampleRatioP := 0, outputTypeP := 0, colorSourceP := 1
            postmultiplyAlphaP := false
            modelPrecisionEnabled := true, modelFileEnabled := false
            colorSourceEnabled := false,
            postmultiplyAlphaEnabled := false })).params
     (p.device = DEVICE_CPU →
        p.modelPrecision = MODEL_PRECISION_FLOAT32 ∧
        p.modelPrecisionEnabled = false) ∧
     (p.device = DEVICE_CUDA → p.modelPrecisionEnabled = true) ∧
     (p.modelFileEnabled = true ↔ p.model = MODEL_CUSTOM) ∧
     (p.colorSourceEnabled = true ↔ p.outputTypeP = OUTPUT_RGBA) ∧
     (p.postmultiplyAlphaEnabled = true ↔ p.outputTypeP = OUTPUT_RGBA)) :=
  ⟨rfl, endInstanceChanged_param_validity _ _ rfl⟩

/- ------------------------------------------------------------------ -/
/- OfxStatus and NaN-aware time arithmetic                            -/
/- ------------------------------------------------------------------ -/

inductive OfxStatus
  | ok
  | failed
  | replyDefault
  | errUnknown
  deriving DecidableEq, Repr

/-- IEEE equality on possibly-NaN doubles: NaN (none) compares unequal
to everything, including itself. -/
def timeEqB : Option ℚ → Option ℚ → Bool
  | some a, some b => a == b
  | _, _ => false

/-- IEEE addition of 1.0 to a possibly-NaN double: NaN + 1 is NaN. -/
def timeAdd1 : Option ℚ → Option ℚ
  | some a => some (a + 1)
  | none => none

/- ------------------------------------------------------------------ -/
/- modelClearHistory (source lines 227-239)                           -/
/- ------------------------------------------------------------------ -/

/-- modelClearHistory: early return when rn_time is already the NaN
sentinel, otherwise reset rn_time to NaN and release the four recurrent
tensors. -/
def modelClearHistory (t : TorchState) : TorchState :=
  if t.rn_time = none then t
  else { t with rn_time := none,
                rn0 := none, rn1 := none, rn2 := none, rn3 := none }

/- ------------------------------------------------------------------ -/
/- getModelFilename / modelSetup (source lines 184-297)               -/
/- ------------------------------------------------------------------ -/

def fpSuffix (p : modelPrecisionParamValue) : String :=
  if p = MODEL_PRECISION_FLOAT16 then "16" else "32"

/-- getModelFilename: the two built-in presets resolve to bundle
filenames parameterized by precision; the custom preset fails (NULL)
when the user path is empty. -/
def getModelFilename (bundlePath : String) (p : ParamStore) : Option String :=
  match p.model with
  | MODEL_MOBILENETV3 =>
      some (bundlePath ++ "/Contents/Resources/rvm_mobilenetv3_fp"
            ++ fpSuffix p.modelPrecision ++ ".torchscript")
  | MODEL_RESNET50 =>
      some (bundlePath ++ "/Contents/Resources/rvm_resnet50_fp"
            ++ fpSuffix p.modelPrecision ++ ".torchscript")
  | MODEL_CUSTOM =>
      if p.modelFile = "" then none else some p.modelFile

/-- Host environment for the load step: the bundle path and whether
loading a serialized model at a given path succeeds. -/
structure LoadEnv where
  bundlePath : String
  loadOk : String → Bool

structure SetupResult where
  status : OfxStatus
  torch : TorchState
  didLoad : Bool
  deriving DecidableEq

/-- modelSetup (source lines 241-297): early success when already ready;
otherwise resolve device and precision into the session, resolve the
model filename (failing on an empty custom path), attempt the load
(didLoad records that the expensive torch load ran), and on success
clear any stale recurrent history and mark the session ready. -/
def modelSetup (env : LoadEnv) (p : ParamStore) (t : TorchState) :
    SetupResult :=
  if t.ready then ⟨OfxStatus.ok, t, false⟩
  else
    let dev := p.device
    let dt := p.modelPrecision
    let t1 := { t with device := dev, dtype := dt }
    match getModelFilename env.bundlePath p with
    | none => ⟨OfxStatus.failed, t1, false⟩
    | some path =>
        if env.loadOk path then
          let t2 := modelClearHistory { t1 with modelPath := some path }
          ⟨OfxStatus.ok, { t2 with ready := true }, true⟩
        else ⟨OfxStatus.failed, t1, true⟩

/- ------------------------------------------------------------------ -/
/- effectInstanceChanged (source lines 400-471)                       -/
/- ------------------------------------------------------------------ -/

/-- effectInstanceChanged: non-user edits pass through; edits to the
four model-affecting parameters drop the ready flag; an edit to
downsampleRatio clears the recurrent history.  For clip changes the
source tests bare strcmp results: line 452 `if (strcmp(objChanged,
"Input"))` is taken when the name is NOT Input, and line 458
`if (strcmp(objChanged, "GarbageMatte"))` is taken when the name is NOT
GarbageMatte; the translation keeps those inverted conditions exactly
as written. -/
def effectInstanceChanged (reason : ChangeReason) (typeChanged : ChangedType)
    (objChanged : String) (connected : Bool) (i : InstanceData) :
    OfxStatus × InstanceData :=
  if reason ≠ ChangeReason.userEdited then (OfxStatus.replyDefault, i)
  else
    let isClip := typeChanged = ChangedType.clip
    let isParam := typeChanged = ChangedType.param
    if isParam ∧ (objChanged = "device" ∨ objChanged = "model" ∨
        objChanged = "modelPrecision" ∨ objChanged = "modelFile") then
      (OfxStatus.ok, { i with torch := { i.torch with ready := false } })
    else if isParam ∧ objChanged = "downsampleRatio" then
      (OfxStatus.ok, { i with torch := modelClearHistory i.torch })
    else if isClip then
      if objChanged ≠ "Input" then
        (OfxStatus.ok, { i with torch := modelClearHistory i.torch })
      else if objChanged ≠ "GarbageMatte" then
        (OfxStatus.ok, { i with hasGarbageMatte := connected })
      else if isClip ∧ objChanged = "SolidMatte" then
        (OfxStatus.ok, { i with hasSolidMatte := connected })
      else (OfxStatus.replyDefault, i)
    else (OfxStatus.replyDefault, i)

/- ------------------------------------------------------------------ -/
/- The per-frame forward pass (source lines 951-990)                  -/
/- ------------------------------------------------------------------ -/

/-- The six tensors returned by the TorchScript forward pass, accessed
at fixed list positions 0-5. -/
structure ForwardOut where
  o0 : RTensor
  o1 : RTensor
  o2 : RTensor
  o3 : RTensor
  o4 : RTensor
  o5 : RTensor

/-- Abstract model forward function: current input tensor, optional
prior hidden-state quadruple, optional downsample-ratio kwarg. -/
def ForwardFn : Type :=
  RTensor → Option (RTensor × RTensor × RTensor × RTensor) → Option ℚ →
  ForwardOut

structure RenderRes where
  hiddenArg : Option (RTensor × RTensor × RTensor × RTensor)
  torch : TorchState
  fgr : RTensor
  pha : RTensor

/-- The reuse condition of source lines 959-962: rn[0] is defined and
the requested time equals rn_time + 1.0 or rn_time (IEEE comparison,
false against the NaN sentinel). -/
def reuseOk (t : ℚ) (s : TorchState) : Bool :=
  s.rn0.isSome &&
    (timeEqB (some t) (timeAdd1 s.rn_time) || timeEqB (some t) s.rn_time)

/-- The model-invocation section of effectRender (source lines
951-990): build kwargs with the downsample ratio when it is nonzero,
pass the four prior hidden tensors exactly when rn[0] is defined and
the requested time equals rn_time + 1.0 or rn_time under IEEE double
comparison, then store outputs 2-5 as the new hidden state, the
requested time as the new rn_time, and return outputs 0 and 1. -/
def renderStep (M : ForwardFn) (t : ℚ) (inp : RTensor) (ratio : ℚ)
    (s : TorchState) : RenderRes :=
  let kwargs : Option ℚ := if ratio ≠ 0 then some ratio else none
  let hiddenArg :=
    if reuseOk t s then
      some (s.rn0.getD 0, s.rn1.getD 0, s.rn2.getD 0, s.rn3.getD 0)
    else none
  let outs := M inp hiddenArg kwargs
  { hiddenArg := hiddenArg
    torch := { s with rn_time := some t
                      rn0 := some outs.o2, rn1 := some outs.o3
                      rn2 := some outs.o4, rn3 := some outs.o5 }
    fgr := outs.o0
    pha := outs.o1 }

/- ------------------------------------------------------------------ -/
/- History invariant and reachability                                 -/
/- ------------------------------------------------------------------ -/

/-- Whole-or-empty history invariant: all four recurrent tensors are
present together with a non-NaN timestamp, or none are and the
timestamp is the NaN sentinel. -/
def histInv (s : TorchState) : Prop :=
  (s.rn_time.isSome ∧ s.rn0.isSome ∧ s.rn1.isSome ∧
   s.rn2.isSome ∧ s.rn3.isSome) ∨
  (s.rn_time = none ∧ s.rn0 = none ∧ s.rn1 = none ∧
   s.rn2 = none ∧ s.rn3 = none)

/-- Empty history: NaN timestamp and no recurrent tensors. -/
def emptyHist (s : TorchState) : Prop :=
  s.rn_time = none ∧ s.rn0 = none ∧ s.rn1 = none ∧
  s.rn2 = none ∧ s.rn3 = none

/-- Instance states reachable through the handlers that mutate
instance data. -/
inductive Reachable : InstanceData → Prop
  | create (p : ParamStore) : Reachable (instanceInit p)
  | changed (r : ChangeReason) (ty : ChangedType) (nm : String) (cn : Bool)
      (i : InstanceData) : Reachable i →
      Reachable (effectInstanceChanged r ty nm cn i).2
  | endChanged (r : ChangeReason) (i : InstanceData) : Reachable i →
      Reachable (effectEndInstanceChanged r i)
  | setup (env : LoadEnv) (p : ParamStore) (i : InstanceData) :
      Reachable i →
      Reachable { i with torch := (modelSetup env p i.torch).torch }
  | render (M : ForwardFn) (t : ℚ) (inp : RTensor) (ratio : ℚ)
      (i : InstanceData) : Reachable i →
      Reachable { i with torch := (renderStep M t inp ratio i.torch).torch }

theorem histInv_clear (s : TorchState) (h : histInv s) :
    histInv (modelClearHistory s) := by
  unfold modelClearHistory
  split
  · exact h
  · right; simp

theorem histInv_clear_any (s : TorchState) :
    emptyHist (modelClearHistory { s with modelPath := s.modelPath }) ∨
    modelClearHistory s = s := by
  unfold modelClearHistory
  by_cases h : s.rn_time = none
  · right; simp [h]
  · left; simp [h, emptyHist]

theorem histInv_setReady (s : TorchState) (b : Bool) (h : histInv s) :
    histInv { s with ready := b } := h

theorem modelSetup_histInv (env : LoadEnv) (p : ParamStore) (t : TorchState)
    (h : histInv t) : histInv (modelSetup env p t).torch := by
  unfold modelSetup
  split
  · exact h
  · split
    · exact h
    · split
      · exact histInv_setReady _ _ (histInv_clear _ h)
      · exact h

theorem reuseOk_some (t t0 : ℚ) (s : TorchState) (ht : s.rn_time = some t0) :
    reuseOk t s = true ↔ (s.rn0.isSome = true ∧ (t = t0 + 1 ∨ t = t0)) := by
  simp [reuseOk, timeEqB, timeAdd1, ht]

theorem reuseOk_nan (t : ℚ) (s : TorchState) (ht : s.rn_time = none) :
    reuseOk t s = false := by
  simp [reuseOk, timeEqB, timeAdd1, ht]

/- ------------------------------------------------------------------ -/
/- Claim theorems: inference session                                  -/
/- ------------------------------------------------------------------ -/

/-- Claim C1: at a render for time t, the forward pass receives the four
prior hidden-state tensors exactly when hidden state is present and t
equals the last-used time or the last-used time plus one; in every other
case (first call, backward seek, frame skip) it receives no hidden
state.  Afterwards the outputs at positions 2-5 become the new hidden
quadruple, outputs 0 and 1 are the foreground and alpha tensors, and t
becomes the new last-used time. -/
theorem renderStep_policy (M : ForwardFn) (t : ℚ) (inp : RTensor)
    (ratio : ℚ) (s : TorchState) (hinv : histInv s) :
    ((renderStep M t inp ratio s).hiddenArg ≠ none ↔
       ((s.rn0.isSome ∧ s.rn1.isSome ∧ s.rn2.isSome ∧ s.rn3.isSome) ∧
        ∃ t0, s.rn_time = some t0 ∧ (t = t0 ∨ t = t0 + 1))) ∧
    (∀ a b c d, s.rn0 = some a → s.rn1 = some b → s.rn2 = some c →
       s.rn3 = some d → (renderStep M t inp ratio s).hiddenArg ≠ none →
       (renderStep M t inp ratio s).hiddenArg = some (a, b, c, d)) ∧
    (renderStep M t inp ratio s).torch.rn_time = some t ∧
    (renderStep M t inp ratio s).torch.rn0 =
      some (M inp (renderStep M t inp ratio s).hiddenArg
              (if ratio ≠ 0 then some ratio else none)).o2 ∧
    (renderStep M t inp ratio s).torch.rn1 =
      some (M inp (renderStep M t inp ratio s).hiddenArg
              (if ratio ≠ 0 then some ratio else none)).o3 ∧
    (renderStep M t inp ratio s).torch.rn2 =
      some (M inp (renderStep M t inp ratio s).hiddenArg
              (if ratio ≠ 0 then some ratio else none)).o4 ∧
    (renderStep M t inp ratio s).torch.rn3 =
      some (M inp (renderStep M t inp ratio s).hiddenArg
              (if ratio ≠ 0 then some ratio else none)).o5 ∧
    (renderStep M t inp ratio s).fgr =
      (M inp (renderStep M t inp ratio s).hiddenArg
         (if ratio ≠ 0 then some ratio else none)).o0 ∧
    (renderStep M t inp ratio s).pha =
      (M inp (renderStep M t inp ratio s).hiddenArg
         (if ratio ≠ 0 then some ratio else none)).o1 := by
  have harg : (renderStep M t inp ratio s).hiddenArg =
      if reuseOk t s then
        some (s.rn0.getD 0, s.rn1.getD 0, s.rn2.getD 0, s.rn3.getD 0)
      else none := rfl
  refine ⟨?_, ?_, rfl, rfl, rfl, rfl, rfl, rfl, rfl⟩
  · rw [harg]
    have hne : (if reuseOk t s then
        some (s.rn0.getD 0, s.rn1.getD 0, s.rn2.getD 0, s.rn3.getD 0)
      else none) ≠ none ↔ reuseOk t s = true := by
      by_cases hb : reuseOk t s = true <;> simp [hb]
    rw [hne]
    rcases hinv with ⟨h1, h2, h3, h4, h5⟩ | ⟨h1, h2, h3, h4, h5⟩
    · obtain ⟨t0, ht0⟩ := Option.isSome_iff_exists.mp h1
      rw [reuseOk_some t t0 s ht0]
      simp only [h2, h3, h4, h5, ht0, Option.some.injEq, true_and]
      constructor
      · rintro (h | h)
        · exact ⟨t0, rfl, Or.inr h⟩
        · exact ⟨t0, rfl, Or.inl h⟩
      · rintro ⟨t1, ht1, h | h⟩
        · subst ht1; exact Or.inr h
        · subst ht1; exact Or.inl h
    · rw [reuseOk_nan t s h1]
      simp [h2]
  · intro a b c d ha1 hb1 hc1 hd1 hne
    rw [harg] at hne ⊢
    by_cases hr : reuseOk t s = true
    · rw [hr]
      simp [ha1, hb1, hc1, hd1]
    · simp [hr] at hne

def params0 : ParamStore :=
  { device := DEVICE_CPU, model := MODEL_MOBILENETV3, modelFile := ""
    modelPrecision := MODEL_PRECISION_FLOAT32
    downsampleRatioP := 0, outputTypeP := 0, colorSourceP := 1
    postmultiplyAlphaP := false
    modelPrecisionEnabled := false, modelFileEnabled := false
    colorSourceEnabled := true, postmultiplyAlphaEnabled := true }

/-- A concrete forward function for witnesses. -/
def fwd0 : ForwardFn := fun _ _ _ => ⟨20, 21, 22, 23, 24, 25⟩

/-- Witness for renderStep_policy at the fresh (empty-history) torch
state, time 7, zero downsample ratio. -/
theorem renderStep_policy_witness :
    histInv (instanceInit params0).torch ∧
    (((renderStep fwd0 7 0 0 (instanceInit params0).torch).hiddenArg ≠ none ↔
       (((instanceInit params0).torch.rn0.isSome ∧
         (instanceInit params0).torch.rn1.isSome ∧
         (instanceInit params0).torch.rn2.isSome ∧
         (instanceInit params0).torch.rn3.isSome) ∧
        ∃ t0, (instanceInit params0).torch.rn_time = some t0 ∧
          ((7 : ℚ) = t0 ∨ (7 : ℚ) = t0 + 1))) ∧
     (∀ a b c d, (instanceInit params0).torch.rn0 = some a →
        (instanceInit params0).torch.rn1 = some b →
        (instanceInit params0).torch.rn2 = some c →
        (instanceInit params0).torch.rn3 = some d →
        (renderStep fwd0 7 0 0 (instanceInit params0).torch).hiddenArg ≠ none →
        (renderStep fwd0 7 0 0 (instanceInit params0).torch).hiddenArg =
          some (a, b, c, d)) ∧
     (renderStep fwd0 7 0 0 (instanceInit params0).torch).torch.rn_time =
       some 7 ∧
     (renderStep fwd0 7 0 0 (instanceInit params0).torch).torch.rn0 =
       some (fwd0 0 (renderStep fwd0 7 0 0 (instanceInit params0).torch).hiddenArg
               (if (0 : ℚ) ≠ 0 then some 0 else none)).o2 ∧
     (renderStep fwd0 7 0 0 (instanceInit params0).torch).torch.rn1 =
       some (fwd0 0 (renderStep fwd0 7 0 0 (instanceInit params0).torch).hiddenArg
               (if (0 : ℚ) ≠ 0 then some 0 else none)).o3 ∧
     (renderStep fwd0 7 0 0 (instanceInit params0).torch).torch.rn2 =
       some (fwd0 0 (renderStep fwd0 7 0 0 (instanceInit params0).torch).hiddenArg
               (if (0 : ℚ) ≠ 0 then some 0 else none)).o4 ∧
     (renderStep fwd0 7 0 0 (instanceInit params0).torch).torch.rn3 =
       some (fwd0 0 (renderStep fwd0 7 0 0 (instanceInit params0).torch).hiddenArg
               (if (0 : ℚ) ≠ 0 then some 0 else none)).o5 ∧
     (renderStep fwd0 7 0 0 (instanceInit params0).torch).fgr =
       (fwd0 0 (renderStep fwd0 7 0 0 (instanceInit params0).torch).hiddenArg
          (if (0 : ℚ) ≠ 0 then some 0 else none)).o0 ∧
     (renderStep fwd0 7 0 0 (instanceInit params0).torch).pha =
       (fwd0 0 (renderStep fwd0 7 0 0 (instanceInit params0).torch).hiddenArg
          (if (0 : ℚ) ≠ 0 then some 0 else none)).o1) :=
  ⟨Or.inr ⟨rfl, rfl, rfl, rfl, rfl⟩,
   renderStep_policy fwd0 7 0 0 (instanceInit params0).torch
     (Or.inr ⟨rfl, rfl, rfl, rfl, rfl⟩)⟩

/-- Case analysis on the torch sub-state produced by one
effectInstanceChanged call: it is either untouched, the same with the
ready flag dropped, or the cleared history. -/
theorem instanceChanged_torch_cases (r : ChangeReason) (ty : ChangedType)
    (nm : String) (cn : Bool) (i : InstanceData) :
    (effectInstanceChanged r ty nm cn i).2.torch = i.torch ∨
    (effectInstanceChanged r ty nm cn i).2.torch =
      { i.torch with ready := false } ∨
    (effectInstanceChanged r ty nm cn i).2.torch =
      modelClearHistory i.torch := by
  unfold effectInstanceChanged
  by_cases h0 : r ≠ ChangeReason.userEdited
  · rw [if_pos h0]; left; rfl
  rw [if_neg h0]
  by_cases h1 : ty = ChangedType.param ∧ (nm = "device" ∨ nm = "model" ∨
      nm = "modelPrecision" ∨ nm = "modelFile")
  · rw [if_pos h1]; right; left; rfl
  rw [if_neg h1]
  by_cases h2 : ty = ChangedType.param ∧ nm = "downsampleRatio"
  · rw [if_pos h2]; right; right; rfl
  rw [if_neg h2]
  by_cases h3 : ty = ChangedType.clip
  · rw [if_pos h3]
    by_cases h4 : nm ≠ "Input"
    · rw [if_pos h4]; right; right; rfl
    rw [if_neg h4]
    by_cases h5 : nm ≠ "GarbageMatte"
    · rw [if_pos h5]; left; rfl
    rw [if_neg h5]
    by_cases h6 : ty = ChangedType.clip ∧ nm = "SolidMatte"
    · rw [if_pos h6]; left; rfl
    · rw [if_neg h6]; left; rfl
  · rw [if_neg h3]; left; rfl

/-- Claim C6: in every reachable instance state the hidden-state
whole-or-empty invariant holds (all four recurrent tensors present with
a non-NaN last-used time, or none present with the NaN sentinel);
modelClearHistory establishes the empty state from any invariant state,
and is a no-op when the history is already empty. -/
theorem history_whole_or_empty :
    (∀ i : InstanceData, Reachable i → histInv i.torch) ∧
    (∀ s : TorchState, histInv s → emptyHist (modelClearHistory s)) ∧
    (∀ s : TorchState, s.rn_time = none → modelClearHistory s = s) := by
  refine ⟨?_, ?_, ?_⟩
  · intro i h
    induction h with
    | create p => exact Or.inr ⟨rfl, rfl, rfl, rfl, rfl⟩
    | changed r ty nm cn i hi ih =>
        rcases instanceChanged_torch_cases r ty nm cn i with h | h | h <;>
          rw [h]
        · exact ih
        · exact histInv_setReady _ _ ih
        · exact histInv_clear _ ih
    | endChanged r i hi ih =>
        have ht : (effectEndInstanceChanged r i).torch = i.torch := by
          unfold effectEndInstanceChanged
          split <;> rfl
        rw [ht]; exact ih
    | setup env p i hi ih => exact modelSetup_histInv env p i.torch ih
    | render M t inp ratio i hi ih =>
        exact Or.inl ⟨rfl, rfl, rfl, rfl, rfl⟩
  · intro s hs
    unfold modelClearHistory
    split
    next hn =>
      rcases hs with ⟨h1, _⟩ | he
      · rw [hn] at h1; simp at h1
      · exact he
    next hn => exact ⟨rfl, rfl, rfl, rfl, rfl⟩
  · intro s hs
    unfold modelClearHistory
    rw [if_pos hs]

/-- Witness for history_whole_or_empty at a concrete freshly created
instance. -/
theorem history_whole_or_empty_witness :
    Reachable (instanceInit params0) ∧
    histInv (instanceInit params0).torch ∧
    emptyHist (modelClearHistory (instanceInit params0).torch) ∧
    modelClearHistory (instanceInit params0).torch =
      (instanceInit params0).torch := by
  refine ⟨Reachable.create params0, ?_, ?_, ?_⟩
  · exact history_whole_or_empty.1 _ (Reachable.create params0)
  · exact history_whole_or_empty.2.1 _
      (history_whole_or_empty.1 _ (Reachable.create params0))
  · exact history_whole_or_empty.2.2 _ rfl

/-- Claim C7: modelSetup is idempotent: when the session is already
marked ready it returns success, leaves the whole session state
untouched, and performs no load; conversely the expensive load only
ever runs from a not-ready session. -/
theorem modelSetup_idempotent (env : LoadEnv) (p : ParamStore)
    (t : TorchState) (h : t.ready = true) :
    modelSetup env p t = ⟨OfxStatus.ok, t, false⟩ ∧
    ∀ u : TorchState, (modelSetup env p u).didLoad = true →
      u.ready = false := by
  constructor
  · unfold modelSetup
    rw [if_pos h]
  · intro u hu
    cases hready : u.ready with
    | false => rfl
    | true =>
        unfold modelSetup at hu
        rw [if_pos hready] at hu
        simp at hu

def env0 : LoadEnv := { bundlePath := "bundle", loadOk := fun _ => true }

def torchReady : TorchState := { (instanceInit params0).torch with ready := true }

/-- Witness for modelSetup_idempotent at a concrete ready session. -/
theorem modelSetup_idempotent_witness :
    torchReady.ready = true ∧
    (modelSetup env0 params0 torchReady = ⟨OfxStatus.ok, torchReady, false⟩ ∧
     ∀ u : TorchState, (modelSetup env0 params0 u).didLoad = true →
       u.ready = false) :=
  ⟨rfl, modelSetup_idempotent env0 params0 torchReady rfl⟩

/- ------------------------------------------------------------------ -/
/- Claim theorems: change notifications on clips (inverted strcmp)    -/
/- ------------------------------------------------------------------ -/

/-- An instance that has accumulated recurrent history (last-used time
5, four hidden tensors) and no cached matte connections. -/
def instWithHistory : InstanceData :=
  { instanceInit params0 with
      torch := { (instanceInit params0).torch with
                   rn_time := some 5
                   rn0 := some 10, rn1 := some 11
                   rn2 := some 12, rn3 := some 13 } }

/-- Claim C2 (code bug): a user-edited change notification for the clip
named Input is specified to invalidate the recurrent history, but the
source tests the bare strcmp result (line 452), so the Input branch is
skipped: the history survives intact and the GarbageMatte connected
flag is overwritten with the Input clip's connected state instead. -/
theorem instanceChanged_input_clip_keeps_history :
    (effectInstanceChanged ChangeReason.userEdited ChangedType.clip
        "Input" true instWithHistory).1 = OfxStatus.ok ∧
    (effectInstanceChanged ChangeReason.userEdited ChangedType.clip
        "Input" true instWithHistory).2.torch.rn_time = some 5 ∧
    (effectInstanceChanged ChangeReason.userEdited ChangedType.clip
        "Input" true instWithHistory).2.torch.rn0 = some 10 ∧
    (effectInstanceChanged ChangeReason.userEdited ChangedType.clip
        "Input" true instWithHistory).2.torch.rn1 = some 11 ∧
    (effectInstanceChanged ChangeReason.userEdited ChangedType.clip
        "Input" true instWithHistory).2.torch.rn2 = some 12 ∧
    (effectInstanceChanged ChangeReason.userEdited ChangedType.clip
        "Input" true instWithHistory).2.torch.rn3 = some 13 ∧
    (effectInstanceChanged ChangeReason.userEdited ChangedType.clip
        "Input" true instWithHistory).2.hasGarbageMatte = true := by
  decide

/-- Claim C3 (code bug): a user-edited change notification for the
optional matte clip GarbageMatte is specified to only refresh that
clip's cached connected flag, but the inverted strcmp at source line
452 routes every non-Input clip into the history-invalidation branch:
the recurrent history is cleared and the connected flag is never
updated. -/
theorem instanceChanged_matte_clip_clears_history :
    (effectInstanceChanged ChangeReason.userEdited ChangedType.clip
        "GarbageMatte" true instWithHistory).1 = OfxStatus.ok ∧
    (effectInstanceChanged ChangeReason.userEdited ChangedType.clip
        "GarbageMatte" true instWithHistory).2.torch.rn_time = none ∧
    (effectInstanceChanged ChangeReason.userEdited ChangedType.clip
        "GarbageMatte" true instWithHistory).2.torch.rn0 = none ∧
    (effectInstanceChanged ChangeReason.userEdited ChangedType.clip
        "GarbageMatte" true instWithHistory).2.torch.rn1 = none ∧
    (effectInstanceChanged ChangeReason.userEdited ChangedType.clip
        "GarbageMatte" true instWithHistory).2.torch.rn2 = none ∧
    (effectInstanceChanged ChangeReason.userEdited ChangedType.clip
        "GarbageMatte" true instWithHistory).2.torch.rn3 = none ∧
    (effectInstanceChanged ChangeReason.userEdited ChangedType.clip
        "GarbageMatte" true instWithHistory).2.hasGarbageMatte = false := by
  decide

/- ------------------------------------------------------------------ -/
/- Tensor values and the output compositor (source lines 992-1027)    -/
/- ------------------------------------------------------------------ -/

/-- Value-level model of a [1, channels, height, width] torch tensor:
the batch dimension is fixed at 1 and the payload is the indexed value
function (channel, row, column). -/
structure Tens where
  nc : Nat
  h : Nat
  w : Nat
  val : Nat → Nat → Nat → ℚ

/-- tensor.repeat(\x7b1, n, 1, 1\x7d): tile the channel axis n times. -/
def Tens.repeatC (t : Tens) (n : Nat) : Tens :=
  { nc := n * t.nc, h := t.h, w := t.w
    val := fun c y x => t.val (c % t.nc) y x }

/-- torch::cat(\x7ba, b\x7d, 1): concatenation along the channel axis. -/
def Tens.catC (a b : Tens) : Tens :=
  { nc := a.nc + b.nc, h := a.h, w := a.w
    val := fun c y x => if c < a.nc then a.val c y x else b.val (c - a.nc) y x }

/-- Elementwise multiplication (the value effect of fgr *= other). -/
def Tens.mulE (a b : Tens) : Tens :=
  { nc := a.nc, h := a.h, w := a.w
    val := fun c y x => a.val c y x * b.val c y x }

/-- tensor.narrow(1, start, len) on the channel axis. -/
def Tens.narrowC (t : Tens) (start len : Nat) : Tens :=
  { nc := len, h := t.h, w := t.w
    val := fun c y x => t.val (start + c) y x }

def kOfxImageComponentRGBA : String := "OfxImageComponentRGBA"
def kOfxImageComponentRGB : String := "OfxImageComponentRGB"
def kOfxImageComponentAlpha : String := "OfxImageComponentAlpha"

/-- The output-compositing switch of effectRender (source lines
992-1027): in OUTPUT_RGBA mode select the foreground (input tensor when
colorSource is COLOR_SRC_INPUT, model prediction otherwise), multiply
in place by the alpha repeated over 3 channels when postmultiplyAlpha
is set, and concatenate with the alpha; in OUTPUT_ALPHA mode repeat the
alpha to the destination component count, throwing (none) for an
unrecognized destination layout; any other output type throws. -/
def compositeOutput (outputType : outputTypeRaw)
    (colorSource : colorSourceRaw) (postmultiplyAlpha : Bool)
    (outComponents : String) (fgr0 pha inputTensor : Tens) : Option Tens :=
  if outputType = OUTPUT_RGBA then
    let fgr := if colorSource = COLOR_SRC_INPUT then inputTensor else fgr0
    let fgr2 := if postmultiplyAlpha then fgr.mulE (pha.repeatC 3) else fgr
    some (fgr2.catC pha)
  else if outputType = OUTPUT_ALPHA then
    if outComponents = kOfxImageComponentRGBA then some (pha.repeatC 4)
    else if outComponents = kOfxImageComponentRGB then some (pha.repeatC 3)
    else if outComponents = kOfxImageComponentAlpha then some pha
    else none
  else none

/-- Claim C8: the compositor computes, in full-color mode, the channel
concatenation of the selected foreground (model prediction or input
RGB, postmultiplied by the broadcast alpha when enabled) with the
alpha; in alpha-only mode, the alpha broadcast to the destination
channel count (4 for RGBA, 3 for RGB, 1 for Alpha), failing on an
unrecognized destination layout; and fails on an unrecognized output
type. -/
theorem compositor_spec (outputType : outputTypeRaw)
    (colorSource : colorSourceRaw) (post : Bool) (outComponents : String)
    (fgr0 pha inputT : Tens)
    (hf : fgr0.nc = 3) (hp : pha.nc = 1) (hi : inputT.nc = 3) :
    (outputType = OUTPUT_RGBA →
      ∃ r, compositeOutput outputType colorSource post outComponents
          fgr0 pha inputT = some r ∧
        r.nc = 4 ∧
        (∀ c y x, c < 3 →
          r.val c y x =
            (if colorSource = COLOR_SRC_INPUT then inputT.val c y x
             else fgr0.val c y x) *
            (if post then pha.val 0 y x else 1)) ∧
        (∀ y x, r.val 3 y x = pha.val 0 y x)) ∧
    (outputType = OUTPUT_ALPHA →
      (outComponents = kOfxImageComponentRGBA →
        ∃ r, compositeOutput outputType colorSource post outComponents
            fgr0 pha inputT = some r ∧ r.nc = 4 ∧
          ∀ c y x, c < 4 → r.val c y x = pha.val 0 y x) ∧
      (outComponents = kOfxImageComponentRGB →
        ∃ r, compositeOutput outputType colorSource post outComponents
            fgr0 pha inputT = some r ∧ r.nc = 3 ∧
          ∀ c y x, c < 3 → r.val c y x = pha.val 0 y x) ∧
      (outComponents = kOfxImageComponentAlpha →
        compositeOutput outputType colorSource post outComponents
          fgr0 pha inputT = some pha) ∧
      (outComponents ≠ kOfxImageComponentRGBA →
       outComponents ≠ kOfxImageComponentRGB →
       outComponents ≠ kOfxImageComponentAlpha →
        compositeOutput outputType colorSource post outComponents
          fgr0 pha inputT = none)) ∧
    (outputType ≠ OUTPUT_RGBA → outputType ≠ OUTPUT_ALPHA →
      compositeOutput outputType colorSource post outComponents
        fgr0 pha inputT = none) := by
  refine ⟨?_, ?_, ?_⟩
  · intro h0
    subst h0
    refine ⟨(if post then
        (if colorSource = COLOR_SRC_INPUT then inputT else fgr0).mulE
          (pha.repeatC 3)
      else
        (if colorSource = COLOR_SRC_INPUT then inputT else fgr0)).catC pha,
      by simp [compositeOutput], ?_, ?_, ?_⟩
    · by_cases hcs : colorSource = COLOR_SRC_INPUT <;>
        by_cases hpa : post <;>
          simp [Tens.catC, Tens.mulE, Tens.repeatC, hcs, hpa, hf, hp, hi]
    · intro c y x hc
      by_cases hcs : colorSource = COLOR_SRC_INPUT <;>
        by_cases hpa : post <;>
          simp [Tens.catC, Tens.mulE, Tens.repeatC, hcs, hpa, hf, hp, hi,
                hc, Nat.mod_one]
    · intro y x
      by_cases hcs : colorSource = COLOR_SRC_INPUT <;>
        by_cases hpa : post <;>
          simp [Tens.catC, Tens.mulE, Tens.repeatC, hcs, hpa, hf, hp, hi]
  · intro h0
    subst h0
    have hne : ¬((OUTPUT_ALPHA : Int) = OUTPUT_RGBA) := by decide
    refine ⟨?_, ?_, ?_, ?_⟩
    · intro hrgba
      refine ⟨pha.repeatC 4,
        by simp [compositeOutput, hne, hrgba], ?_, ?_⟩
      · simp [Tens.repeatC, hp]
      · intro c y x hc
        simp [Tens.repeatC, hp, Nat.mod_one]
    · intro hrgb
      have hne2 : outComponents ≠ kOfxImageComponentRGBA := by
        rw [hrgb]; decide
      refine ⟨pha.repeatC 3,
        by simp [compositeOutput, hne, hne2, hrgb, kOfxImageComponentRGB,
                 kOfxImageComponentRGBA], ?_, ?_⟩
      · simp [Tens.repeatC, hp]
      · intro c y x hc
        simp [Tens.repeatC, hp, Nat.mod_one]
    · intro halpha
      have hne2 : outComponents ≠ kOfxImageComponentRGBA := by
        rw [halpha]; decide
      have hne3 : outComponents ≠ kOfxImageComponentRGB := by
        rw [halpha]; decide
      simp [compositeOutput, hne, hne2, hne3, halpha, kOfxImageComponentRGB,
            kOfxImageComponentRGBA, kOfxImageComponentAlpha]
    · intro hn1 hn2 hn3
      simp [compositeOutput, hne, hn1, hn2, hn3]
  · intro hn1 hn2
    simp [compositeOutput, hn1, hn2]

def fgrW : Tens := ⟨3, 1, 1, fun _ _ _ => 1/2⟩

def phaW : Tens := ⟨1, 1, 1, fun _ _ _ => 1/4⟩

def inputW : Tens := ⟨3, 1, 1, fun _ _ _ => 1⟩

/-- Witness for compositor_spec at concrete 1x1 tensors in full-color
mode with model color source and postmultiply enabled. -/
theorem compositor_spec_witness :
    fgrW.nc = 3 ∧ phaW.nc = 1 ∧ inputW.nc = 3 ∧
    ((OUTPUT_RGBA = OUTPUT_RGBA →
      ∃ r, compositeOutput OUTPUT_RGBA COLOR_SRC_MODEL true
          kOfxImageComponentAlpha fgrW phaW inputW = some r ∧
        r.nc = 4 ∧
        (∀ c y x, c < 3 →
          r.val c y x =
            (if COLOR_SRC_MODEL = COLOR_SRC_INPUT then inputW.val c y x
             else fgrW.val c y x) *
            (if true then phaW.val 0 y x else 1)) ∧
        (∀ y x, r.val 3 y x = phaW.val 0 y x)) ∧
    (OUTPUT_RGBA = OUTPUT_ALPHA →
      (kOfxImageComponentAlpha = kOfxImageComponentRGBA →
        ∃ r, compositeOutput OUTPUT_RGBA COLOR_SRC_MODEL true
            kOfxImageComponentAlpha fgrW phaW inputW = some r ∧ r.nc = 4 ∧
          ∀ c y x, c < 4 → r.val c y x = phaW.val 0 y x) ∧
      (kOfxImageComponentAlpha = kOfxImageComponentRGB →
        ∃ r, compositeOutput OUTPUT_RGBA COLOR_SRC_MODEL true
            kOfxImageComponentAlpha fgrW phaW inputW = some r ∧ r.nc = 3 ∧
          ∀ c y x, c < 3 → r.val c y x = phaW.val 0 y x) ∧
      (kOfxImageComponentAlpha = kOfxImageComponentAlpha →
        compositeOutput OUTPUT_RGBA COLOR_SRC_MODEL true
          kOfxImageComponentAlpha fgrW phaW inputW = some phaW) ∧
      (kOfxImageComponentAlpha ≠ kOfxImageComponentRGBA →
       kOfxImageComponentAlpha ≠ kOfxImageComponentRGB →
       kOfxImageComponentAlpha ≠ kOfxImageComponentAlpha →
        compositeOutput OUTPUT_RGBA COLOR_SRC_MODEL true
          kOfxImageComponentAlpha fgrW phaW inputW = none)) ∧
    (OUTPUT_RGBA ≠ OUTPUT_RGBA → OUTPUT_RGBA ≠ OUTPUT_ALPHA →
      compositeOutput OUTPUT_RGBA COLOR_SRC_MODEL true
        kOfxImageComponentAlpha fgrW phaW inputW = none)) :=
  ⟨rfl, rfl, rfl,
   compositor_spec OUTPUT_RGBA COLOR_SRC_MODEL true kOfxImageComponentAlpha
     fgrW phaW inputW rfl rfl rfl⟩

/- ------------------------------------------------------------------ -/
/- Pixel-tensor bridge (source lines 749-890)                         -/
/- ------------------------------------------------------------------ -/

def kOfxBitDepthByte : String := "OfxBitDepthByte"
def kOfxBitDepthShort : String := "OfxBitDepthShort"
def kOfxBitDepthHalf : String := "OfxBitDepthHalf"
def kOfxBitDepthFloat : String := "OfxBitDepthFloat"

/-- ImageInfo (source lines 749-756): the host pixel-buffer descriptor
fields the bridge reads.  The raw data pointer plus byte-addressed
memory is modelled as element-addressed memory (one rational value per
pixel component), which is faithful whenever the element size divides
the row stride, as the strided from_blob view itself assumes with its
rowBytes / vs element stride. -/
structure ImageInfo where
  x1 : Int
  y1 : Int
  x2 : Int
  y2 : Int
  rowBytes : Int
  pixelDepth : String
  components : String

/-- Element-addressed buffer memory. -/
abbrev Mem := Int → ℚ

inductive TorchDtype
  | tByte
  | tShort
  | tFloat16
  | tFloat32
  deriving DecidableEq, Repr

/-- The component-layout ladder shared by both conversion directions:
RGBA gives 4 channels, RGB 3, Alpha 1, anything else is unrecognized. -/
def componentCount (components : String) : Option Nat :=
  if components = kOfxImageComponentRGBA then some 4
  else if components = kOfxImageComponentRGB then some 3
  else if components = kOfxImageComponentAlpha then some 1
  else none

/-- The pixel-depth ladder of imageToTensor: element byte width, torch
dtype of the raw view, normalization scale (1/255 for byte, 1/32768 for
short, 1 otherwise). -/
def depthInfo (pixelDepth : String) : Option (Int × TorchDtype × ℚ) :=
  if pixelDepth = kOfxBitDepthByte then some (1, TorchDtype.tByte, 1/255)
  else if pixelDepth = kOfxBitDepthShort then
    some (2, TorchDtype.tShort, 1/32768)
  else if pixelDepth = kOfxBitDepthHalf then some (2, TorchDtype.tFloat16, 1)
  else if pixelDepth = kOfxBitDepthFloat then
    some (4, TorchDtype.tFloat32, 1)
  else none

/-- The pixel-depth ladder of tensorToImage: same widths and dtypes,
inverse scales (255 for byte, 32768 for short, 1 otherwise). -/
def depthInfoOut (pixelDepth : String) : Option (Int × TorchDtype × ℚ) :=
  if pixelDepth = kOfxBitDepthByte then some (1, TorchDtype.tByte, 255)
  else if pixelDepth = kOfxBitDepthShort then
    some (2, TorchDtype.tShort, 32768)
  else if pixelDepth = kOfxBitDepthHalf then some (2, TorchDtype.tFloat16, 1)
  else if pixelDepth = kOfxBitDepthFloat then
    some (4, TorchDtype.tFloat32, 1)
  else none

/-- Element address of tensor coordinate (y, x, c): the data pointer is
offset by rowBytes * y1 + vs * x1 bytes (source line 818, i.e.
rowBytes/vs * y1 + x1 elements) and the from_blob view uses element
strides \x7browBytes / vs, nc, 1\x7d (source line 823).  C integer division
truncates toward zero, hence Int.tdiv. -/
def elemAddr (img : ImageInfo) (vs : Int) (nc : Nat) (y x c : Nat) : Int :=
  (Int.tdiv img.rowBytes vs) * (img.y1 + y) + img.x1 + nc * x + c

/-- Truncation toward zero, the C float-to-integer cast. -/
def truncQ (q : ℚ) : Int := if 0 ≤ q then ⌊q⌋ else ⌈q⌉

/-- Value effect of casting to a torch dtype in the exact-rational
model: the integer dtypes truncate toward zero, float casts are exact
(the idealization of IEEE float16/float32 rounding). -/
def castDepth : TorchDtype → ℚ → ℚ
  | TorchDtype.tByte, q => (truncQ q : ℚ)
  | TorchDtype.tShort, q => (truncQ q : ℚ)
  | TorchDtype.tFloat16, q => q
  | TorchDtype.tFloat32, q => q

/-- imageToTensor (source lines 780-834): resolve the channel count and
depth (returning the undefined tensor, none, when either tag is
unrecognized), build the zero-copy [h, w, nc] view at the offset
address, convert to the target device/dtype (exact in the rational
model), multiply by the scale (a no-op when the scale is 1), permute to
channel-first and add the batch dimension.  The resulting value at
(c, y, x) is the buffer element at elemAddr scaled. -/
def imageToTensor (img : ImageInfo) (mem : Mem) (td : deviceParamValue)
    (tt : TorchDtype) : Option Tens :=
  let w := (img.x2 - img.x1).toNat
  let h := (img.y2 - img.y1).toNat
  match componentCount img.components, depthInfo img.pixelDepth with
  | some nc, some (vs, _dt, sf) =>
      some { nc := nc, h := h, w := w
             val := fun c y x => mem (elemAddr img vs nc y x c) * sf }
  | _, _ => none

/-- All tensor coordinates (y, x, c) of an [h, w, nc] view, used to
model which destination elements the row-by-row memcpy overwrites. -/
def allCoords (w h nc : Nat) : List (Nat × Nat × Nat) :=
  (List.range h).flatMap (fun y =>
    (List.range w).flatMap (fun x =>
      (List.range nc).map (fun c => (y, x, c))))

/-- tensorToImage (source lines 836-890): silent return (no write) when
the component layout or depth tag is unrecognized; otherwise squeeze
and permute back to [h, w, nc], multiply by the inverse scale, cast to
CPU and the buffer dtype, make contiguous, and memcpy row by row into
the destination using its row stride.  The source fetches the copy
pointer with t.data_ptr<float>(), which type-checks the tensor scalar
type and throws c10::Error (modelled as none) whenever the tensor was
just cast to a non-float32 dtype, i.e. for byte, short and half
depths. -/
def tensorToImage (img : ImageInfo) (t : Tens) (mem : Mem) : Option Mem :=
  let w := (img.x2 - img.x1).toNat
  let h := (img.y2 - img.y1).toNat
  match componentCount img.components, depthInfoOut img.pixelDepth with
  | some nc, some (vs, dt, sf) =>
      if dt ≠ TorchDtype.tFloat32 then none
      else
        some (fun a =>
          match (allCoords w h nc).find?
              (fun yxc => elemAddr img vs nc yxc.1 yxc.2.1 yxc.2.2 == a) with
          | some yxc => castDepth dt (t.val yxc.2.2 yxc.1 yxc.2.1 * sf)
          | none => mem a)
  | _, _ => some mem

/-- For the float depth (the only depth the write-back path completes,
and the only depth the effect ever negotiates with the host), the
bridge round-trips exactly: writing back the tensor read from a buffer
reproduces that buffer. -/
theorem imageToTensor_roundTrip_float (img : ImageInfo) (mem : Mem)
    (td : deviceParamValue) (tt : TorchDtype) (t : Tens)
    (hdepth : img.pixelDepth = kOfxBitDepthFloat)
    (ht : imageToTensor img mem td tt = some t) :
    tensorToImage img t mem = some mem := by
  have hdi : depthInfo img.pixelDepth = some (4, TorchDtype.tFloat32, 1) := by
    rw [hdepth]
    simp [depthInfo, kOfxBitDepthByte, kOfxBitDepthShort, kOfxBitDepthHalf,
          kOfxBitDepthFloat]
  have hdo : depthInfoOut img.pixelDepth =
      some (4, TorchDtype.tFloat32, 1) := by
    rw [hdepth]
    simp [depthInfoOut, kOfxBitDepthByte, kOfxBitDepthShort,
          kOfxBitDepthHalf, kOfxBitDepthFloat]
  cases hcc : componentCount img.components with
  | none =>
      rw [imageToTensor, hcc, hdi] at ht
      simp at ht
  | some nc =>
      rw [imageToTensor, hcc, hdi] at ht
      simp only [Option.some.injEq] at ht
      rw [tensorToImage, hcc, hdo]
      simp only [ne_eq, not_true_eq_false, if_false, reduceIte,
                 Option.some.injEq]
      funext a
      cases hfind : (allCoords (img.x2 - img.x1).toNat
          (img.y2 - img.y1).toNat nc).find?
          (fun yxc => elemAddr img 4 nc yxc.1 yxc.2.1 yxc.2.2 == a) with
      | none => rfl
      | some yxc =>
          have hpred := List.find?_some hfind
          have haddr : elemAddr img 4 nc yxc.1 yxc.2.1 yxc.2.2 = a := by
            exact_mod_cast beq_iff_eq.mp hpred
          rw [← ht]
          simp [castDepth, haddr]

/-- A 1x1 RGBA byte-depth buffer: 4 one-byte elements per row. -/
def imgByte : ImageInfo :=
  { x1 := 0, y1 := 0, x2 := 1, y2 := 1, rowBytes := 4
    pixelDepth := kOfxBitDepthByte, components := kOfxImageComponentRGBA }

/-- Contents of the byte buffer: components 7, 8, 9, 255. -/
def memByte : Mem :=
  fun a => if a = 0 then 7 else if a = 1 then 8
    else if a = 2 then 9 else if a = 3 then 255 else 0

/-- Claim C4 (code bug): the round trip is specified to reproduce a
byte-depth buffer exactly, but the write-back direction dies first: the
to-tensor conversion succeeds (isSome), yet tensorToImage casts the
tensor to kByte and then fetches the copy pointer with
t.data_ptr<float>(), whose scalar-type check throws c10::Error for the
byte tensor, so nothing is ever written back (none). -/
theorem roundTrip_byte_throws :
    ((imageToTensor imgByte memByte DEVICE_CPU TorchDtype.tFloat32).bind
      (fun t => tensorToImage imgByte t memByte)) = none ∧
    (imageToTensor imgByte memByte DEVICE_CPU
        TorchDtype.tFloat32).isSome = true := by
  constructor
  · simp [imageToTensor, tensorToImage, imgByte, componentCount, depthInfo,
          depthInfoOut, kOfxBitDepthByte, kOfxBitDepthShort,
          kOfxBitDepthHalf, kOfxBitDepthFloat, kOfxImageComponentRGBA,
          kOfxImageComponentRGB, kOfxImageComponentAlpha]
  · simp [imageToTensor, imgByte, componentCount, depthInfo,
          kOfxBitDepthByte, kOfxImageComponentRGBA]

/- ------------------------------------------------------------------ -/
/- Aliasing model of the input data path (claims about buffer         -/
/- mutation; source lines 818-833 and 992-1010)                       -/
/- ------------------------------------------------------------------ -/

/-- A tensor together with its storage provenance: viewAddr is some f
when element (c, y, x) of the (channel-first) tensor aliases the input
buffer element at address f c y x, and none when the tensor owns fresh
storage. -/
structure TensA where
  tens : Tens
  viewAddr : Option (Nat → Nat → Nat → Int)

/-- imageToTensor with storage tracking.  torch::from_blob yields a CPU
view of dtype dt over the buffer; Tensor.to(device, dtype) with the
default copy=false returns that same view whenever the source already
matches the target device and dtype, and a fresh copy otherwise; the
in-place scale (rv *= sf) only runs for byte and short depths, whose
view dtype can never equal the float target dtype, so it always writes
the fresh copy; permute and unsqueeze are views. -/
def imageToTensorA (img : ImageInfo) (mem : Mem) (td : deviceParamValue)
    (tt : TorchDtype) : Option TensA :=
  let w := (img.x2 - img.x1).toNat
  let h := (img.y2 - img.y1).toNat
  match componentCount img.components, depthInfo img.pixelDepth with
  | some nc, some (vs, dt, sf) =>
      some { tens := { nc := nc, h := h, w := w
                       val := fun c y x => mem (elemAddr img vs nc y x c) * sf }
             viewAddr :=
               if td = DEVICE_CPU ∧ dt = tt then
                 some (fun c y x => elemAddr img vs nc y x c)
               else none }
  | _, _ => none

/-- tensor.narrow on the channel axis keeps the storage: a narrowed
view of an aliasing view still aliases. -/
def narrowA (t : TensA) (start len : Nat) : TensA :=
  { tens := t.tens.narrowC start len
    viewAddr := t.viewAddr.map (fun f => fun c y x => f (start + c) y x) }

/-- In-place multiplication (fgr *= other): the new values land in the
tensor's backing storage, so when the tensor is a view over the input
buffer the buffer elements under the view are overwritten. -/
def mulInPlaceA (t : TensA) (o : Tens) (mem : Mem) : TensA × Mem :=
  let newT := t.tens.mulE o
  match t.viewAddr with
  | none => (⟨newT, none⟩, mem)
  | some f =>
      (⟨newT, some f⟩,
       fun a =>
         match (allCoords newT.w newT.h newT.nc).find?
             (fun yxc => f yxc.2.2 yxc.1 yxc.2.1 == a) with
         | some yxc => newT.val yxc.2.2 yxc.1 yxc.2.1
         | none => mem a)

/-- The input-buffer effect of one render call's tensor pipeline
(source lines 933-1027), threading the input buffer memory through the
operations that can write to it: imageToTensor, the RGBA/RGB channel
narrowing, the forward pass M (producing fresh fgr and pha tensors),
and the compositing switch whose in-place postmultiply is the only
write-capable step.  Returns the input buffer contents at the end of
the call, or none when the pipeline throws. -/
def renderInputBufferAfter (img : ImageInfo) (outputType : outputTypeRaw)
    (colorSource : colorSourceRaw) (post : Bool) (dev : deviceParamValue)
    (tt : TorchDtype) (M : Tens → Tens × Tens) (mem : Mem) : Option Mem :=
  match imageToTensorA img mem dev tt with
  | none => none
  | some t0 =>
      let t1opt : Option TensA :=
        if t0.tens.nc = 3 then some t0
        else if t0.tens.nc = 4 then some (narrowA t0 0 3)
        else none
      match t1opt with
      | none => none
      | some t1 =>
          let fp := M t1.tens
          if outputType = OUTPUT_RGBA then
            let fgrA := if colorSource = COLOR_SRC_INPUT then t1
                        else ⟨fp.1, none⟩
            if post then some (mulInPlaceA fgrA (fp.2.repeatC 3) mem).2
            else some mem
          else some mem

/-- A 1x1 RGB float-depth input buffer: three 4-byte elements per row
(rowBytes 12). -/
def imgFloatRGB : ImageInfo :=
  { x1 := 0, y1 := 0, x2 := 1, y2 := 1, rowBytes := 12
    pixelDepth := kOfxBitDepthFloat, components := kOfxImageComponentRGB }

/-- Input buffer holding 1 in each of the three components. -/
def memFloat : Mem :=
  fun a => if a = 0 then 1 else if a = 1 then 1 else if a = 2 then 1 else 0

/-- A model whose forward pass predicts alpha one half everywhere. -/
def halfAlphaModel : Tens → Tens × Tens :=
  fun inp => (⟨3, inp.h, inp.w, fun _ _ _ => 1/2⟩,
              ⟨1, inp.h, inp.w, fun _ _ _ => 1/2⟩)

/-- Claim C10 (code bug): the claim asserts the host input buffer is
never modified because the to-tensor device/dtype conversion always
copies, but Tensor.to does not copy when the float-depth input on the
CPU already matches the float32 model dtype; with output type RGBA,
color source input and postmultiply enabled, the in-place fgr *= pha
then writes foreground times alpha through the view into the host
input buffer: element 0 drops from 1 to 1/2 during the call. -/
theorem render_mutates_input_buffer :
    (renderInputBufferAfter imgFloatRGB OUTPUT_RGBA COLOR_SRC_INPUT true
        DEVICE_CPU TorchDtype.tFloat32 halfAlphaModel memFloat).map
      (fun m => m 0) = some (1/2) ∧
    memFloat 0 = 1 := by
  constructor
  · have h1 : (renderInputBufferAfter imgFloatRGB OUTPUT_RGBA COLOR_SRC_INPUT
        true DEVICE_CPU TorchDtype.tFloat32 halfAlphaModel memFloat).map
        (fun m => m 0) = some ((1 * 1) * (1 / 2) : ℚ) := rfl
    rw [h1]
    norm_num
  · rfl

/- ------------------------------------------------------------------ -/
/- Render-call control flow and buffer lifetime (source lines         -/
/- 893-1052)                                                          -/
/- ------------------------------------------------------------------ -/

/-- Outcome of the try block of effectRender: it ran to completion, it
threw the local NoImageEx signal, or a C++ exception from torch
(c10::Error) escaped it -- the catch clause only handles NoImageEx. -/
inductive TryOutcome
  | completed
  | noImage
  | torchError
  deriving DecidableEq, Repr

/-- Host-and-model behaviour during one render call, as effectRender
observes it: the modelSetup status, availability of the two clip
images, whether the input converts to a defined tensor, its channel
count, whether the torch calls (forward / toTensorList / tensor ops /
write-back) throw, whether the compositing switch hits an unrecognized
layout or output type, and whether the host accepts the abort. -/
structure RenderEnv where
  setupStatus : OfxStatus
  outputImageAvail : Bool
  inputImageAvail : Bool
  inputTensorOk : Bool
  inputChannels : Nat
  torchThrows : Bool
  compositeUnrecognized : Bool
  abortAccepted : Bool

/-- Result of one effectRender call in the buffer-lifetime model:
exitStatus is some st when the handler returns st, and none when a C++
exception propagates out of it; the four flags record which clip
images were successfully acquired and which were released. -/
structure RenderFlowRes where
  exitStatus : Option OfxStatus
  acquiredOutput : Bool
  acquiredInput : Bool
  releasedOutput : Bool
  releasedInput : Bool
  deriving DecidableEq, Repr

/-- The control flow of effectRender (source lines 893-1052): return
early on setup failure; inside the try block acquire the output then
the input image (throwing NoImageEx on either failure), convert,
narrow, run the model and composite (NoImageEx on unrecognized
layout or output type, and any torch failure raises c10::Error);
catch(NoImageEx) calls abort and downgrades the status when the host
declines; the trailing cleanup releases whichever image handles are
set -- but it is skipped entirely when a non-NoImageEx exception
unwinds through the handler. -/
def effectRenderFlow (env : RenderEnv) : RenderFlowRes :=
  if env.setupStatus ≠ OfxStatus.ok then
    ⟨some env.setupStatus, false, false, false, false⟩
  else
    let aqOut := env.outputImageAvail
    let aqIn := env.outputImageAvail && env.inputImageAvail
    let inner : TryOutcome :=
      if !env.outputImageAvail then TryOutcome.noImage
      else if !env.inputImageAvail then TryOutcome.noImage
      else if !env.inputTensorOk then TryOutcome.noImage
      else if env.inputChannels ≠ 3 ∧ env.inputChannels ≠ 4 then
        TryOutcome.noImage
      else if env.torchThrows then TryOutcome.torchError
      else if env.compositeUnrecognized then TryOutcome.noImage
      else TryOutcome.completed
    match inner with
    | TryOutcome.torchError => ⟨none, aqOut, aqIn, false, false⟩
    | TryOutcome.noImage =>
        ⟨some (if env.abortAccepted then OfxStatus.ok else OfxStatus.failed),
         aqOut, aqIn, aqOut, aqIn⟩
    | TryOutcome.completed => ⟨some OfxStatus.ok, aqOut, aqIn, aqOut, aqIn⟩

/-- Claim C5 (code bug): every successfully acquired image is claimed
to be released on every exit path, including errors during inference;
but when the torch forward pass throws after both images were
acquired, the exception is not caught by the NoImageEx handler, the
cleanup block never runs, and both handles leak while the exception
escapes the render handler. -/
theorem render_leaks_buffers_on_torch_error :
    effectRenderFlow
      { setupStatus := OfxStatus.ok, outputImageAvail := true
        inputImageAvail := true, inputTensorOk := true, inputChannels := 3
        torchThrows := true, compositeUnrecognized := false
        abortAccepted := false } =
      ⟨none, true, true, false, false⟩ := by
  decide

/-- On every path on which the torch calls do not throw, the cleanup
does run and exactly the acquired images are released. -/
theorem render_releases_when_no_torch_error (env : RenderEnv)
    (h : env.torchThrows = false) :
    (effectRenderFlow env).releasedOutput =
      (effectRenderFlow env).acquiredOutput ∧
    (effectRenderFlow env).releasedInput =
      (effectRenderFlow env).acquiredInput ∧
    (effectRenderFlow env).exitStatus ≠ none := by
  unfold effectRenderFlow
  split
  · exact ⟨rfl, rfl, by simp⟩
  · cases ho : env.outputImageAvail <;>
      cases hi : env.inputImageAvail <;>
        cases hc : env.inputTensorOk <;>
          by_cases hch : env.inputChannels ≠ 3 ∧ env.inputChannels ≠ 4 <;>
            cases hcu : env.compositeUnrecognized <;>
              simp [h, ho, hi, hc, hch, hcu]
